import Mathlib

/-!
Verification of the workflow-orchestration core of the GitHub issue workflow
bot.  The definitions below are a shallow embedding of the TypeScript source:

* `RetryConfig`, `ThrownError`, `retryGo`/`retryWithBackoff` embed
  `WorkflowProcessor.retryWithBackoff` and the `WorkflowError` class
  (`src/types.ts`).
* Delays are milliseconds modelled as naturals; the backoff multiplier is
  modelled as a natural (the source allows arbitrary JS numbers, but every
  configuration in the claims uses whole-number multipliers).
-/

set_option autoImplicit false

namespace IssueWorkflow

/-- Embedding of `RetryConfig` from `src/types.ts`. -/
structure RetryConfig where
  maxRetries : Nat
  initialDelayMs : Nat
  maxDelayMs : Nat
  backoffMultiplier : Nat
deriving DecidableEq

/-- Values thrown by workflow steps.  `workflow` embeds the `WorkflowError`
class of `src/types.ts` (message, code, retryable flag, and the `context`
argument when it is used to carry a causing error); `generic` embeds any
other thrown `Error`, of which only the `message` property is observed. -/
inductive ThrownError where
  | workflow (message : String) (code : String) (retryable : Bool)
      (cause : Option ThrownError)
  | generic (message : String)

/-- The `message` property of a thrown error. -/
def ThrownError.message : ThrownError → String
  | .workflow m _ _ _ => m
  | .generic m => m

/-- The test `error instanceof WorkflowError && !error.retryable`
performed by `retryWithBackoff` (an unclassified error is retried). -/
def ThrownError.isNonRetryable : ThrownError → Bool
  | .workflow _ _ r _ => !r
  | .generic _ => false

/-- `lastError?.message || 'Unknown error'`: in JS the empty string is falsy,
so an empty message also falls back to `'Unknown error'`. -/
def msgOrUnknown (e : ThrownError) : String :=
  if e.message = "" then "Unknown error" else e.message

/-- The error synthesized by `retryWithBackoff` when all attempts failed:
`new WorkflowError(op + ' failed after ' + (maxRetries+1) + ' attempts: ' +
lastError.message, 'MAX_RETRIES_EXCEEDED', false, lastError)`. -/
def mkMaxRetriesError (operationType : String) (cfg : RetryConfig)
    (lastError : ThrownError) : ThrownError :=
  .workflow
    (operationType ++ " failed after " ++ toString (cfg.maxRetries + 1) ++
      " attempts: " ++ msgOrUnknown lastError)
    "MAX_RETRIES_EXCEEDED" false (some lastError)

/-- Observable result of one `retryWithBackoff` call: the final state of the
mutable data the operation closes over, the returned value or thrown error,
the number of times the operation was invoked, and the sleeps performed (in
order, in milliseconds). -/
structure RetryOut (σ : Type) (α : Type) where
  state : σ
  outcome : Except ThrownError α
  attempts : Nat
  sleeps : List Nat

/-- The loop body of `WorkflowProcessor.retryWithBackoff`.  The operation is
a function of the attempt index (0-based) and of the mutable state it closes
over; it returns the updated state together with a value or a thrown error.
`remaining` counts the retries still allowed, so the source's final-attempt
test `attempt === maxRetries` corresponds to `remaining = 0`; in both cases
the attempt body is the same except that with `remaining = 0` a retryable
failure becomes the synthesized `MAX_RETRIES_EXCEEDED` error instead of a
sleep followed by a recursive call with
`delay = min(delay * backoffMultiplier, maxDelayMs)`. -/
def retryGo {σ α : Type} (op : Nat → σ → σ × Except ThrownError α)
    (cfg : RetryConfig) (operationType : String) :
    Nat → Nat → Nat → σ → List Nat → RetryOut σ α
  | 0, attempt, _, s, sleeps =>
    let p := op attempt s
    match p.2 with
    | .ok v => ⟨p.1, .ok v, attempt + 1, sleeps.reverse⟩
    | .error e =>
      if e.isNonRetryable then ⟨p.1, .error e, attempt + 1, sleeps.reverse⟩
      else ⟨p.1, .error (mkMaxRetriesError operationType cfg e), attempt + 1,
        sleeps.reverse⟩
  | remaining + 1, attempt, delay, s, sleeps =>
    let p := op attempt s
    match p.2 with
    | .ok v => ⟨p.1, .ok v, attempt + 1, sleeps.reverse⟩
    | .error e =>
      if e.isNonRetryable then ⟨p.1, .error e, attempt + 1, sleeps.reverse⟩
      else
        retryGo op cfg operationType remaining (attempt + 1)
          (min (delay * cfg.backoffMultiplier) cfg.maxDelayMs) p.1
          (delay :: sleeps)

/-- Embedding of `WorkflowProcessor.retryWithBackoff`
(`src/workflow-processor.ts`, reproduced in
`src/agents/tech-lead.agent.simple.test.ts` lines 564-605). -/
def retryWithBackoff {σ α : Type} (op : Nat → σ → σ × Except ThrownError α)
    (cfg : RetryConfig) (operationType : String) (s : σ) : RetryOut σ α :=
  retryGo op cfg operationType cfg.maxRetries 0 cfg.initialDelayMs s []

/-- `retryWithBackoff` applied to an operation with no observable state,
whose outcome depends only on the attempt index. -/
def retryPure {α : Type} (op : Nat → Except ThrownError α) (cfg : RetryConfig)
    (operationType : String) : RetryOut Unit α :=
  retryWithBackoff (fun k s => (s, op k)) cfg operationType ()

/-- The delay sequence of one `retryWithBackoff` call: starting from `d`, each
subsequent delay is `min (d * backoffMultiplier) maxDelayMs`, never reset. -/
def delaysFrom (cfg : RetryConfig) : Nat → Nat → List Nat
  | _, 0 => []
  | d, n + 1 =>
    d :: delaysFrom cfg (min (d * cfg.backoffMultiplier) cfg.maxDelayMs) n

/-- Embedding of the `AgentType` enum of `src/types.ts`. -/
inductive AgentType where
  | tech_lead
  | worker
  | qa
deriving DecidableEq

/-- The string value of an `AgentType` (used in log/error messages). -/
def AgentType.label : AgentType → String
  | .tech_lead => "tech_lead"
  | .worker => "worker"
  | .qa => "qa"

/-- Embedding of the `WorkflowStatus` enum of `src/types.ts`. -/
inductive WorkflowStatus where
  | PENDING
  | PARSING
  | BRANCH_CREATING
  | AGENT_ASSIGNED
  | PROCESSING
  | COMPLETED
  | FAILED
deriving DecidableEq

/-- Embedding of `AgentResult` from `src/types.ts` (the optional
`branchName`/`pullRequestUrl` fields are never set by the agents modelled
here and are omitted). -/
structure AgentResult where
  success : Bool
  output : String
  error : Option String
deriving DecidableEq

/-- Embedding of `WorkflowContext` from `src/types.ts`.  The
`createdAt`/`updatedAt` `Date` fields carry wall-clock time only and are
omitted from the embedding. -/
structure WorkflowContext where
  issueId : Nat
  issueNumber : Nat
  repository : String
  owner : String
  title : String
  body : String
  labels : List String
  branchName : Option String
  agentType : Option AgentType
  status : WorkflowStatus
  retryCount : Nat
deriving DecidableEq

/-- The settled state of the promise returned by the abstract
`BaseAgent.processIssue`: it either fulfills with an `AgentResult` or
rejects; of a rejection value the source only observes `error?.message`,
modelled as `Option String` (`none` when the value is `null`/`undefined` or
has no string `message` property).  `delayMs` is the time at which the
promise settles, raced against the timeout timer. -/
inductive ProcOutcome where
  | ok (result : AgentResult) (delayMs : Nat)
  | err (message : Option String) (delayMs : Nat)

/-- Message of the `AGENT_TIMEOUT` `WorkflowError` rejected by the timeout
promise in `BaseAgent.execute`. -/
def timeoutMessage (type : AgentType) (timeout : Nat) : String :=
  "Agent " ++ type.label ++ " timed out after " ++ toString timeout ++ "ms"

/-- The `Promise.race([resultPromise, timeoutPromise])` in
`BaseAgent.execute`: the timer fires at `timeout` ms, so the inner promise
wins exactly when it settles strictly earlier. -/
def baseExecuteRace (type : AgentType) (timeout : Nat) (p : ProcOutcome) :
    Except (Option String) AgentResult :=
  match p with
  | .ok r d =>
      if d < timeout then .ok r else .error (some (timeoutMessage type timeout))
  | .err m d =>
      if d < timeout then .error m else .error (some (timeoutMessage type timeout))

/-- `error?.message || 'Unknown agent error'` from the catch block of
`BaseAgent.execute`; in JS the empty string is falsy, so an empty message
also falls back to the default. -/
def agentMsgOrDefault : Option String → String
  | some s => if s = "" then "Unknown agent error" else s
  | none => "Unknown agent error"

/-- Embedding of `BaseAgent.execute` (`src/agents/base.agent.ts`, reproduced
in `src/agents/tech-lead.agent.simple.test.ts` lines 293-327): race the
agent logic against the timeout and catch every rejection, turning it into
a failed `AgentResult` with empty output. -/
def baseExecute (type : AgentType) (timeout : Nat) (p : ProcOutcome) :
    AgentResult :=
  match baseExecuteRace type timeout p with
  | .ok r => r
  | .error m => ⟨false, "", some (agentMsgOrDefault m)⟩

/-- Behaviour of the injected Claude runner's `runPrompt` for one call: it
resolves with some text or rejects, after `delayMs` milliseconds.  Of a
rejection value `TechLeadAgent.processIssue` only observes `error.message`,
modelled as `Option String`. -/
inductive RunnerOutcome where
  | resolves (text : String) (delayMs : Nat)
  | rejects (message : Option String) (delayMs : Nat)

/-- JS template-literal rendering of `error.message`: a missing message
(`undefined`) renders as the string `"undefined"`. -/
def jsTemplate : Option String → String
  | some s => s
  | none => "undefined"

/-- Embedding of `TechLeadAgent.processIssue` (`src/agents/tech-lead.agent.ts`):
`validateContext` runs before the try block, so its non-retryable
`INVALID_CONTEXT` `WorkflowError` rejects the promise directly (JS string
truthiness: a field fails validation exactly when it is the empty string);
otherwise the runner is invoked once and a rejection is wrapped as
`Tech lead analysis failed: <message>`.  Returns the promise outcome paired
with the number of `runPrompt` invocations. -/
def techLeadProcessIssue (ctx : WorkflowContext) (runner : RunnerOutcome) :
    ProcOutcome × Nat :=
  if ctx.title = "" ∨ ctx.repository = "" ∨ ctx.owner = "" then
    (.err (some "Invalid workflow context: missing required fields") 0, 0)
  else
    match runner with
    | .resolves text d => (.ok ⟨true, text, none⟩ d, 1)
    | .rejects m d =>
        (.err (some ("Tech lead analysis failed: " ++ jsTemplate m)) d, 1)

/-- `TechLeadAgent.execute`: `BaseAgent.execute` applied to
`TechLeadAgent.processIssue`, together with the `runPrompt` call count. -/
def techLeadExecute (timeout : Nat) (ctx : WorkflowContext)
    (runner : RunnerOutcome) : AgentResult × Nat :=
  let pr := techLeadProcessIssue ctx runner
  (baseExecute .tech_lead timeout pr.1, pr.2)

/-- Remote repository state observed by `GitHubService.createBranch`: the
repository's configured default branch, the result of
`octokit.repos.getBranch` per branch name (tip commit sha, or an HTTP
error with status code and message), and for `octokit.git.createRef` the
error it would fail with, if any, per ref name. -/
structure RepoState where
  defaultBranch : String
  branchTip : String → Except (Nat × String) String
  refCreateStatus : String → Option (Nat × String)

/-- The catch block of `GitHubService.createBranch`: HTTP 422 becomes the
non-retryable `BRANCH_EXISTS` error, 404 the non-retryable
`REPO_NOT_FOUND` error, anything else a retryable
`BRANCH_CREATION_FAILED` error carrying the underlying message. -/
def classifyBranchError (e : Nat × String) : ThrownError :=
  if e.1 = 422 then
    .workflow "Branch already exists or invalid branch name" "BRANCH_EXISTS"
      false none
  else if e.1 = 404 then
    .workflow "Repository not found or insufficient permissions"
      "REPO_NOT_FOUND" false none
  else
    .workflow ("Failed to create branch: " ++ e.2) "BRANCH_CREATION_FAILED"
      true (some (.generic e.2))

/-- Embedding of `GitHubService.createBranch`
(`src/services/github.service.ts` lines 13-58).  `now` is the value of
`Date.now()` in epoch milliseconds.  The source reads the tip of the branch
literally named `'main'` — not `repository.default_branch` — and creates
`refs/heads/<branchName>` at that commit; on success it returns the branch
name, modelled here together with the commit sha the new ref points at. -/
def githubCreateBranch (repo : RepoState) (now : Nat) (ctx : WorkflowContext) :
    Except ThrownError (String × String) :=
  let branchName := "feature/issue-" ++ toString ctx.issueNumber ++ "-" ++
    toString now
  match repo.branchTip "main" with
  | .error e => .error (classifyBranchError e)
  | .ok sha =>
    match repo.refCreateStatus branchName with
    | some e => .error (classifyBranchError e)
    | none => .ok (branchName, sha)

/-- Embedding of `GitHubIssue` from `src/types.ts` (the fields read by the
workflow; `labels` holds the label names extracted by
`issue.labels.map(label => label.name)`). -/
structure GitHubIssue where
  id : Nat
  number : Nat
  title : String
  body : Option String
  state : String
  labels : List String
deriving DecidableEq

/-- The fields of a webhook `repository` object read by the workflow. -/
structure GitHubRepo where
  name : String
  ownerLogin : String
deriving DecidableEq

/-- Embedding of `GitHubWebhook`: the TypeScript type declares `issue` and
`repository` as present, but `isValidIssueEvent` re-checks them at runtime
(`!!webhook.issue`, `!!webhook.repository`), so they are optional here. -/
structure GitHubWebhook where
  action : String
  issue : Option GitHubIssue
  repository : Option GitHubRepo
deriving DecidableEq

/-- Embedding of `WorkflowProcessor.isValidIssueEvent`. -/
def isValidIssueEvent (w : GitHubWebhook) : Bool :=
  w.action = "opened" && w.issue.isSome && w.repository.isSome &&
    (match w.issue with
     | some i => i.state = "open"
     | none => false)

/-- The workflow configuration fields consulted by `processIssue`
(`config.retry`, `config.agents.tech_lead.enabled`,
`config.agents.tech_lead.timeout`). -/
structure WorkflowConfig where
  retry : RetryConfig
  techLeadEnabled : Bool
  techLeadTimeout : Nat

/-- Machine state threaded through one `processIssue` call: the mutable
`WorkflowContext` (the source mutates it in place, so updates survive a
step's failure), the sequence of assignments to `context.status` in order,
and invocation counters for `techLeadAgent.execute` and
`githubService.createBranch`. -/
structure PState where
  ctx : WorkflowContext
  trace : List WorkflowStatus
  agentCalls : Nat
  branchCalls : Nat

/-- Behaviour of the external collaborators during one `processIssue` call,
indexed by the attempt number of the step consulting them.  Each GitHub
oracle yields the outcome of the corresponding `GitHubService` method —
already wrapped in that method's own `WorkflowError` classification — and
`runner` gives the Claude runner's behaviour for the agent execution of
that attempt. -/
structure WorldEnv where
  validateRepo : Nat → Bool
  interimBranchStatus : Nat → Except ThrownError Unit
  createBranchResult : Nat → Except ThrownError String
  interimAgentStatus : Nat → Except ThrownError Unit
  runner : Nat → RunnerOutcome
  postAnalysis : Nat → Except ThrownError Unit
  completedStatus : Nat → Except ThrownError Unit
  failedStatus : Except ThrownError Unit

/-- Embedding of `WorkflowProcessor.parseWebhook` for one attempt: validate
the event shape, build the initial context (status `PARSING`,
`body: issue.body || ''`), then check repository access
(`validateRepository` never throws, so it is a boolean oracle); denied
access raises the non-retryable `REPO_ACCESS_DENIED` error. -/
def parseWebhook (env : WorldEnv) (k : Nat) (w : GitHubWebhook) :
    Except ThrownError WorkflowContext :=
  if isValidIssueEvent w then
    match w.issue, w.repository with
    | some issue, some repo =>
      if env.validateRepo k then
        .ok ⟨issue.id, issue.number, repo.name, repo.ownerLogin, issue.title,
          issue.body.getD "", issue.labels, none, none, .PARSING, 0⟩
      else
        .error (.workflow "No access to repository or repository not found"
          "REPO_ACCESS_DENIED" false none)
    | _, _ =>
      .error (.workflow "Invalid webhook payload or unsupported event"
        "INVALID_WEBHOOK" false none)
  else
    .error (.workflow "Invalid webhook payload or unsupported event"
      "INVALID_WEBHOOK" false none)

/-- Assignment `context.status = st` (plus its trace event). -/
def setStatus (s : PState) (st : WorkflowStatus) : PState :=
  { s with ctx := { s.ctx with status := st }, trace := s.trace ++ [st] }

/-- The catch block of `WorkflowProcessor.createBranch`: a non-retryable
`WorkflowError` is re-raised unchanged, anything else is wrapped as the
retryable `BRANCH_CREATION_FAILED` error (both modelled error forms are
`Error`s, so the message interpolation always uses `error.message`). -/
def branchCatch (e : ThrownError) : ThrownError :=
  if e.isNonRetryable then e
  else
    .workflow ("Branch creation failed: " ++ e.message)
      "BRANCH_CREATION_FAILED" true (some e)

/-- Embedding of `WorkflowProcessor.createBranch` for one attempt
(`src/agents/tech-lead.agent.simple.test.ts` lines 475-499): set status
`BRANCH_CREATING`, then — inside one try block — post the interim
`branch-creating` status and create the branch; a failure of either call
reaches the same catch.  `branchCalls` counts `githubService.createBranch`
invocations. -/
def createBranchStep (env : WorldEnv) (k : Nat) (s : PState) :
    PState × Except ThrownError Unit :=
  let s1 := setStatus s .BRANCH_CREATING
  match env.interimBranchStatus k with
  | .error e => (s1, .error (branchCatch e))
  | .ok _ =>
    let s2 := { s1 with branchCalls := s1.branchCalls + 1 }
    match env.createBranchResult k with
    | .error e => (s2, .error (branchCatch e))
    | .ok name =>
        ({ s2 with ctx := { s2.ctx with branchName := some name } }, .ok ())

/-- The catch block of `WorkflowProcessor.assignAgent`: every
`WorkflowError` (retryable or not) is re-raised unchanged, anything else
is wrapped as the retryable `AGENT_ASSIGNMENT_FAILED` error. -/
def assignCatch (e : ThrownError) : ThrownError :=
  match e with
  | .workflow _ _ _ _ => e
  | .generic m =>
      .workflow ("Agent assignment failed: " ++ m) "AGENT_ASSIGNMENT_FAILED"
        true (some e)

/-- Embedding of `WorkflowProcessor.assignAgent` for one attempt
(`src/agents/tech-lead.agent.simple.test.ts` lines 501-545): set status
`AGENT_ASSIGNED` and the agent type, post the interim `processing` status,
check the enabled flag, set status `PROCESSING`, run the agent (which never
rejects, see `baseExecute`), wrap an unsuccessful `AgentResult` into the
retryable `AGENT_EXECUTION_FAILED` error (its `context` carries the result
object, not an error, hence `cause = none`), and finally post the analysis
comment.  `agentCalls` counts `techLeadAgent.execute` invocations. -/
def assignAgentStep (cfg : WorkflowConfig) (env : WorldEnv) (k : Nat)
    (s : PState) : PState × Except ThrownError Unit :=
  let sA := setStatus s .AGENT_ASSIGNED
  let s1 := { sA with ctx := { sA.ctx with agentType := some .tech_lead } }
  match env.interimAgentStatus k with
  | .error e => (s1, .error (assignCatch e))
  | .ok _ =>
    if cfg.techLeadEnabled = false then
      (s1, .error (.workflow "Tech lead agent is disabled" "AGENT_DISABLED"
        false none))
    else
      let s2 := setStatus s1 .PROCESSING
      let er := techLeadExecute cfg.techLeadTimeout s2.ctx (env.runner k)
      let s3 := { s2 with agentCalls := s2.agentCalls + 1 }
      if er.1.success then
        match env.postAnalysis k with
        | .error e => (s3, .error (assignCatch e))
        | .ok _ => (s3, .ok ())
      else
        (s3, .error (.workflow ("Agent execution failed: " ++
            jsTemplate er.1.error) "AGENT_EXECUTION_FAILED" true none))

/-- Embedding of `WorkflowProcessor.updateStatus`: the status assignment
happens before the remote call, so it survives a posting failure; a
failure is wrapped as the retryable `STATUS_UPDATE_FAILED` error. -/
def updateStatusCore (remote : Except ThrownError Unit) (st : WorkflowStatus)
    (s : PState) : PState × Except ThrownError Unit :=
  let s1 := setStatus s st
  match remote with
  | .ok _ => (s1, .ok ())
  | .error e =>
      (s1, .error (.workflow ("Status update failed: " ++ e.message)
        "STATUS_UPDATE_FAILED" true (some e)))

/-- The `UPDATE_STATUS` step: `updateStatus(context, COMPLETED)` for one
attempt. -/
def completedStep (env : WorldEnv) (k : Nat) (s : PState) :
    PState × Except ThrownError Unit :=
  updateStatusCore (env.completedStatus k) .COMPLETED s

/-- Observable result of one `processIssue` call: the re-raised error or
normal return, the final context (none when parsing never produced one),
the status-assignment trace, the agent invocation count, the number of
failure-path `updateStatus(FAILED, ...)` calls and the detail string passed
to them. -/
structure ProcResult where
  outcome : Except ThrownError Unit
  finalCtx : Option WorkflowContext
  trace : List WorkflowStatus
  agentCalls : Nat
  failedCalls : Nat
  failedDetail : Option String

/-- The `errorMessage` computed in `processIssue`'s catch block:
a `WorkflowError`'s own message, otherwise `Unexpected error: <message>`. -/
def catchMessage : ThrownError → String
  | .workflow m _ _ _ => m
  | .generic m => "Unexpected error: " ++ m

/-- The catch block of `processIssue` when a context exists: one direct
(not retry-wrapped) `updateStatus(context, FAILED, errorMessage)` whose own
failure is caught and only logged, after which the original error is
re-raised.  `remote` is the posting outcome (`env.failedStatus`). -/
def failPath (remote : Except ThrownError Unit) (s : PState)
    (e : ThrownError) : ProcResult :=
  let p := updateStatusCore remote .FAILED s
  ⟨.error e, some p.1.ctx, p.1.trace, p.1.agentCalls, 1, some (catchMessage e)⟩

/-- Steps 2-4 of `WorkflowProcessor.processIssue`, entered once parsing has
produced a context: each step is wrapped in `retryWithBackoff` with the
process-level policy and its label; the first failure goes to the catch
block (`failPath`). -/
def processSteps (cfg : WorkflowConfig) (env : WorldEnv) (s0 : PState) :
    ProcResult :=
  let r2 := retryWithBackoff (createBranchStep env) cfg.retry "CREATE_BRANCH" s0
  match r2.outcome with
  | .error e => failPath env.failedStatus r2.state e
  | .ok _ =>
    let r3 := retryWithBackoff (assignAgentStep cfg env) cfg.retry
      "ASSIGN_AGENT" r2.state
    match r3.outcome with
    | .error e => failPath env.failedStatus r3.state e
    | .ok _ =>
      let r4 := retryWithBackoff (completedStep env) cfg.retry "UPDATE_STATUS"
        r3.state
      match r4.outcome with
      | .error e => failPath env.failedStatus r4.state e
      | .ok _ =>
          ⟨.ok (), some r4.state.ctx, r4.state.trace, r4.state.agentCalls, 0,
            none⟩

/-- Embedding of `WorkflowProcessor.processIssue`
(`src/agents/tech-lead.agent.simple.test.ts` lines 384-434).  While parsing
retries, the `context` variable is still `null`: a parse failure reaches the
catch block with `context = null`, so no `FAILED` status update is attempted
and the error is re-raised directly. -/
def processIssue (cfg : WorkflowConfig) (env : WorldEnv) (w : GitHubWebhook) :
    ProcResult :=
  let r1 := retryWithBackoff (fun k s => (s, parseWebhook env k w)) cfg.retry
    "PARSE_WEBHOOK" ()
  match r1.outcome with
  | .error e => ⟨.error e, none, [], 0, 0, none⟩
  | .ok ctx => processSteps cfg env ⟨ctx, [.PARSING], 0, 0⟩

/-- Rank of a workflow status in the forward progression of the spec's
state machine. -/
def statusRank : WorkflowStatus → Nat
  | .PENDING => 0
  | .PARSING => 1
  | .BRANCH_CREATING => 2
  | .AGENT_ASSIGNED => 3
  | .PROCESSING => 4
  | .COMPLETED => 5
  | .FAILED => 6

/-- A status transition that either moves forward in rank (jumping to
FAILED, rank 6, is forward from anything) or is the re-entry
`PROCESSING → AGENT_ASSIGNED` performed by a retried agent step. -/
def RetryStep (a b : WorkflowStatus) : Prop :=
  statusRank a ≤ statusRank b ∨ (a = .PROCESSING ∧ b = .AGENT_ASSIGNED)

instance : DecidableRel RetryStep := fun a b => by
  unfold RetryStep
  infer_instance

/-- Trace invariant: the trace so far is a `RetryStep` chain and its last
entry has rank at most `bound`. -/
def TraceInv (bound : Nat) (s : PState) : Prop :=
  List.Chain' RetryStep s.trace ∧
    ∀ a, s.trace.getLast? = some a → statusRank a ≤ bound

/-- The terminal guarantee and failure-path behaviour of one `ProcResult`. -/
def TerminalSpec (r : ProcResult) : Prop :=
  (∀ c, r.finalCtx = some c → c.status = .COMPLETED ∨ c.status = .FAILED) ∧
  (∀ c e, r.finalCtx = some c → r.outcome = .error e →
    r.failedCalls = 1 ∧ c.status = .FAILED ∧
      r.failedDetail = some (catchMessage e)) ∧
  (r.finalCtx = none → r.failedCalls = 0) ∧
  (∀ c, r.outcome = .ok () → r.finalCtx = some c →
    c.status = .COMPLETED ∧ r.failedCalls = 0)

theorem retryGo_allFailPure {α : Type} (op : Nat → Except ThrownError α)
    (cfg : RetryConfig) (t : String)
    (h : ∀ k, ∃ e, op k = .error e ∧ e.isNonRetryable = false) :
    ∀ r a d sl, ∃ e, op (a + r) = .error e ∧
      (retryGo (fun k s => (s, op k)) cfg t r a d () sl).outcome =
        .error (mkMaxRetriesError t cfg e) ∧
      (retryGo (fun k s => (s, op k)) cfg t r a d () sl).attempts = a + r + 1 := by
  intro r
  induction r with
  | zero =>
    intro a d sl
    obtain ⟨e, he, hr⟩ := h a
    exact ⟨e, by simpa using he, by simp [retryGo, he, hr],
      by simp [retryGo, he, hr]⟩
  | succ n ih =>
    intro a d sl
    obtain ⟨e, he, hr⟩ := h a
    obtain ⟨e', he', ho, ha⟩ :=
      ih (a + 1) (min (d * cfg.backoffMultiplier) cfg.maxDelayMs) (d :: sl)
    refine ⟨e', ?_, ?_, ?_⟩
    · rw [show a + (n + 1) = (a + 1) + n by omega]
      exact he'
    · simpa [retryGo, he, hr] using ho
    · rw [show a + (n + 1) + 1 = (a + 1) + n + 1 by omega]
      simpa [retryGo, he, hr] using ha

/-- C1: with `maxRetries = n` and an operation failing retryably on every
attempt, `retryWithBackoff` invokes the operation exactly `n + 1` times and
raises an error with code `MAX_RETRIES_EXCEEDED`, retryable flag `false`,
wrapping the error of the last attempt as its cause. -/
theorem retry_exhausts_and_wraps {α : Type} (op : Nat → Except ThrownError α)
    (cfg : RetryConfig) (t : String)
    (h : ∀ k, ∃ e, op k = .error e ∧ e.isNonRetryable = false) :
    (retryPure op cfg t).attempts = cfg.maxRetries + 1 ∧
    ∃ e, op cfg.maxRetries = .error e ∧
      (retryPure op cfg t).outcome =
        .error (.workflow
          (t ++ " failed after " ++ toString (cfg.maxRetries + 1) ++
            " attempts: " ++ msgOrUnknown e)
          "MAX_RETRIES_EXCEEDED" false (some e)) := by
  obtain ⟨e, he, ho, ha⟩ :=
    retryGo_allFailPure op cfg t h cfg.maxRetries 0 cfg.initialDelayMs []
  refine ⟨by simpa [retryPure, retryWithBackoff] using ha, e, by simpa using he, ?_⟩
  simpa [retryPure, retryWithBackoff, mkMaxRetriesError] using ho

/-- Witness for C1 at a concrete operation and policy. -/
theorem retry_exhausts_and_wraps_witness :
    (retryPure (fun _ => (.error (.generic "boom") : Except ThrownError Nat))
        ⟨3, 100, 150, 2⟩ "OP").attempts = 4 ∧
    (retryPure (fun _ => (.error (.generic "boom") : Except ThrownError Nat))
        ⟨3, 100, 150, 2⟩ "OP").outcome =
      .error (.workflow "OP failed after 4 attempts: boom"
        "MAX_RETRIES_EXCEEDED" false (some (.generic "boom"))) := by
  have h := retry_exhausts_and_wraps
    (fun _ => (.error (.generic "boom") : Except ThrownError Nat))
    ⟨3, 100, 150, 2⟩ "OP" (fun _ => ⟨.generic "boom", rfl, rfl⟩)
  obtain ⟨ha, e, he, ho⟩ := h
  have : ThrownError.generic "boom" = e := by
    have := he
    simp only at this
    injection this
  subst this
  exact ⟨ha, by rw [ho]; rfl⟩

theorem retryGo_failsThenOk {α : Type} (op : Nat → Except ThrownError α)
    (cfg : RetryConfig) (t : String) (v : α) :
    ∀ n r a d sl, n ≤ r →
      (∀ k, k < n → ∃ e, op (a + k) = .error e ∧ e.isNonRetryable = false) →
      op (a + n) = .ok v →
      retryGo (fun k s => (s, op k)) cfg t r a d () sl =
        ⟨(), .ok v, a + n + 1, sl.reverse ++ delaysFrom cfg d n⟩ := by
  intro n
  induction n with
  | zero =>
    intro r a d sl _ _ hok
    rw [Nat.add_zero] at hok
    cases r <;> simp [retryGo, hok, delaysFrom]
  | succ m ih =>
    intro r a d sl hle hfail hok
    obtain ⟨r', rfl⟩ : ∃ r', r = r' + 1 := ⟨r - 1, by omega⟩
    obtain ⟨e, he, hr⟩ := hfail 0 (by omega)
    rw [Nat.add_zero] at he
    have hrec := ih r' (a + 1) (min (d * cfg.backoffMultiplier) cfg.maxDelayMs)
      (d :: sl) (by omega)
      (fun k hk => by
        have := hfail (k + 1) (by omega)
        rwa [show a + (k + 1) = (a + 1) + k by omega] at this)
      (by rwa [show a + (m + 1) = (a + 1) + m by omega] at hok)
    rw [show (retryGo (fun k s => (s, op k)) cfg t (r' + 1) a d () sl) =
      retryGo (fun k s => (s, op k)) cfg t r' (a + 1)
        (min (d * cfg.backoffMultiplier) cfg.maxDelayMs) () (d :: sl) from by
        simp [retryGo, he, hr], hrec]
    simp [delaysFrom, List.reverse_cons, List.append_assoc]
    omega

/-- C2: if the operation fails retryably on the first `n` attempts and
succeeds on attempt `n` (0-based) within the retry budget, the observed
sleeps are exactly the capped geometric sequence starting at
`initialDelayMs`, updated after every failed attempt as
`min (delay * backoffMultiplier) maxDelayMs` and never reset. -/
theorem retry_delay_sequence {α : Type} (op : Nat → Except ThrownError α)
    (cfg : RetryConfig) (t : String) (n : Nat) (v : α)
    (hn : n ≤ cfg.maxRetries)
    (hfail : ∀ k, k < n → ∃ e, op k = .error e ∧ e.isNonRetryable = false)
    (hok : op n = .ok v) :
    (retryPure op cfg t).sleeps = delaysFrom cfg cfg.initialDelayMs n ∧
    (retryPure op cfg t).outcome = .ok v ∧
    (retryPure op cfg t).attempts = n + 1 := by
  have h := retryGo_failsThenOk op cfg t v n cfg.maxRetries 0 cfg.initialDelayMs []
    hn (fun k hk => by simpa using hfail k hk) (by simpa using hok)
  rw [retryPure, retryWithBackoff, h]
  simp

/-- Witness for C2: with `initialDelay = 100`, `backoffMultiplier = 2`,
`maxDelay = 150`, three retryable failures then success, the sleeps are
exactly `[100, 150, 150]`. -/
theorem retry_delay_sequence_witness :
    (retryPure (fun k => if k < 3 then .error (.generic "boom") else .ok 1)
        ⟨3, 100, 150, 2⟩ "CREATE_BRANCH").sleeps = [100, 150, 150] ∧
    (retryPure (fun k => if k < 3 then .error (.generic "boom") else .ok 1)
        ⟨3, 100, 150, 2⟩ "CREATE_BRANCH").outcome = .ok 1 ∧
    (retryPure (fun k => if k < 3 then .error (.generic "boom") else .ok 1)
        ⟨3, 100, 150, 2⟩ "CREATE_BRANCH").attempts = 4 := by
  have h := retry_delay_sequence
    (fun k => if k < 3 then .error (.generic "boom") else .ok 1)
    ⟨3, 100, 150, 2⟩ "CREATE_BRANCH" 3 1 (by decide)
    (fun k hk => ⟨.generic "boom", by simp [hk], rfl⟩) (by simp)
  exact ⟨by rw [h.1]; rfl, h.2.1, h.2.2⟩

/-- C3: an operation failing on the first attempt with an error classified
non-retryable is invoked exactly once, no sleep is performed, and the same
error is re-raised unchanged (not wrapped into `MAX_RETRIES_EXCEEDED`). -/
theorem retry_nonRetryable_once {α : Type} (op : Nat → Except ThrownError α)
    (cfg : RetryConfig) (t : String) (e : ThrownError)
    (h0 : op 0 = .error e) (hnr : e.isNonRetryable = true) :
    (retryPure op cfg t).outcome = .error e ∧
    (retryPure op cfg t).attempts = 1 ∧
    (retryPure op cfg t).sleeps = [] := by
  rw [retryPure, retryWithBackoff]
  cases cfg.maxRetries <;> simp [retryGo, h0, hnr]

/-- Witness for C3 at a concrete non-retryable error. -/
theorem retry_nonRetryable_once_witness :
    (retryPure (fun _ => (.error (.workflow "Invalid webhook payload or unsupported event"
          "INVALID_WEBHOOK" false none) : Except ThrownError Nat))
        ⟨3, 100, 150, 2⟩ "PARSE_WEBHOOK").outcome =
      .error (.workflow "Invalid webhook payload or unsupported event"
        "INVALID_WEBHOOK" false none) ∧
    (retryPure (fun _ => (.error (.workflow "Invalid webhook payload or unsupported event"
          "INVALID_WEBHOOK" false none) : Except ThrownError Nat))
        ⟨3, 100, 150, 2⟩ "PARSE_WEBHOOK").attempts = 1 ∧
    (retryPure (fun _ => (.error (.workflow "Invalid webhook payload or unsupported event"
          "INVALID_WEBHOOK" false none) : Except ThrownError Nat))
        ⟨3, 100, 150, 2⟩ "PARSE_WEBHOOK").sleeps = [] :=
  retry_nonRetryable_once _ ⟨3, 100, 150, 2⟩ "PARSE_WEBHOOK"
    (.workflow "Invalid webhook payload or unsupported event" "INVALID_WEBHOOK" false none)
    rfl rfl

/-- C7: for a context whose title, repository or owner is empty,
`TechLeadAgent.execute` returns `success = false` with the
`Invalid workflow context` validation message and the prompt runner is
invoked zero times. -/
theorem techLead_invalid_context (timeout : Nat) (ctx : WorkflowContext)
    (runner : RunnerOutcome) (ht : 0 < timeout)
    (h : ctx.title = "" ∨ ctx.repository = "" ∨ ctx.owner = "") :
    (techLeadExecute timeout ctx runner).2 = 0 ∧
    (techLeadExecute timeout ctx runner).1.success = false ∧
    (techLeadExecute timeout ctx runner).1.error =
      some ("Invalid workflow context" ++ ": missing required fields") := by
  have hif : (if ctx.title = "" ∨ ctx.repository = "" ∨ ctx.owner = "" then
      ((.err (some "Invalid workflow context: missing required fields") 0, 0) :
        ProcOutcome × Nat)
    else
      match runner with
      | .resolves text d => (.ok ⟨true, text, none⟩ d, 1)
      | .rejects m d =>
          (.err (some ("Tech lead analysis failed: " ++ jsTemplate m)) d, 1)) =
      (.err (some "Invalid workflow context: missing required fields") 0, 0) :=
    if_pos h
  refine ⟨?_, ?_, ?_⟩ <;>
    simp [techLeadExecute, techLeadProcessIssue, hif, baseExecute,
      baseExecuteRace, agentMsgOrDefault, ht]

/-- Witness for C7 at a concrete context with empty title. -/
theorem techLead_invalid_context_witness :
    (techLeadExecute 30000
        ⟨1, 123, "test-repo", "testuser", "", "body", [], none, none,
          .PENDING, 0⟩
        (.resolves "analysis" 5)).2 = 0 ∧
    (techLeadExecute 30000
        ⟨1, 123, "test-repo", "testuser", "", "body", [], none, none,
          .PENDING, 0⟩
        (.resolves "analysis" 5)).1.success = false ∧
    (techLeadExecute 30000
        ⟨1, 123, "test-repo", "testuser", "", "body", [], none, none,
          .PENDING, 0⟩
        (.resolves "analysis" 5)).1.error =
      some "Invalid workflow context: missing required fields" := by
  have h := techLead_invalid_context 30000
    ⟨1, 123, "test-repo", "testuser", "", "body", [], none, none, .PENDING, 0⟩
    (.resolves "analysis" 5) (by decide) (Or.inl rfl)
  exact ⟨h.1, h.2.1, h.2.2.trans (by rfl)⟩

/-- C10 counterexample: rejecting with an error whose message is the empty
string (a message that exists), `BaseAgent.execute` returns
`'Unknown agent error'` rather than that message, because the fallback
`error?.message || 'Unknown agent error'` treats the empty string as falsy. -/
theorem baseExecute_empty_message_counterexample :
    baseExecute .tech_lead 30000 (.err (some "") 0) =
      ⟨false, "", some "Unknown agent error"⟩ ∧
    (some "" : Option String) ≠ some "Unknown agent error" :=
  ⟨rfl, by decide⟩

/-- C10 (amended): `BaseAgent.execute` is total — it always returns an
`AgentResult`; a raced computation resolving before the timeout is returned
unchanged, and on any internal error (rejection before the timeout, or the
timeout itself) it returns `success = false`, `output = ""` and `error` set
to the caught error's message when that message is a non-empty string, and
`'Unknown agent error'` otherwise (missing message or empty-string
message). -/
theorem baseExecute_total (type : AgentType) (timeout : Nat) (p : ProcOutcome) :
    (∀ r d, p = .ok r d → d < timeout → baseExecute type timeout p = r) ∧
    (∀ m, baseExecuteRace type timeout p = .error m →
      baseExecute type timeout p = ⟨false, "", some (agentMsgOrDefault m)⟩) ∧
    (∀ s, baseExecuteRace type timeout p = .error (some s) → s ≠ "" →
      baseExecute type timeout p = ⟨false, "", some s⟩) ∧
    (∀ m, baseExecuteRace type timeout p = .error m →
      (m = none ∨ m = some "") →
      baseExecute type timeout p = ⟨false, "", some "Unknown agent error"⟩) := by
  refine ⟨?_, ?_, ?_, ?_⟩
  · rintro r d rfl hd
    simp [baseExecute, baseExecuteRace, hd]
  · intro m hm
    simp [baseExecute, hm]
  · intro s hm hs
    simp [baseExecute, hm, agentMsgOrDefault, hs]
  · rintro m hm (rfl | rfl) <;> simp [baseExecute, hm, agentMsgOrDefault]

/-- Witness for C10 at a concrete rejection with a non-empty message. -/
theorem baseExecute_total_witness :
    baseExecute .tech_lead 30000 (.err (some "boom") 1) =
      ⟨false, "", some "boom"⟩ :=
  (baseExecute_total .tech_lead 30000 (.err (some "boom") 1)).2.2.1
    "boom" rfl (by decide)

/-- C9 counterexample: in a repository whose default branch is `develop`,
`createBranch` starts the new branch from the tip of `main`
(`"sha-main"`), not from the tip of the default branch (`"sha-dev"`). -/
theorem createBranch_base_counterexample :
    githubCreateBranch
        ⟨"develop",
          fun b => if b = "develop" then .ok "sha-dev"
            else if b = "main" then .ok "sha-main"
            else .error (404, "Branch not found"),
          fun _ => none⟩
        999
        ⟨1, 123, "test-repo", "testuser", "Add auth", "", [], none, none,
          .PENDING, 0⟩ =
      .ok ("feature/issue-123-999", "sha-main") ∧
    (⟨"develop",
        fun b => if b = "develop" then .ok "sha-dev"
          else if b = "main" then .ok "sha-main"
          else .error (404, "Branch not found"),
        fun _ => none⟩ : RepoState).branchTip "develop" = .ok "sha-dev" ∧
    "sha-main" ≠ "sha-dev" :=
  ⟨rfl, rfl, by decide⟩

/-- C9 (amended): the created branch is named
`feature/issue-<issueNumber>-<epoch-ms>` and starts at the tip commit of
the branch literally named `main` in the item's repository (the source
hardcodes `'main'` rather than using the repository's default branch). -/
theorem createBranch_name_and_base (repo : RepoState) (now : Nat)
    (ctx : WorkflowContext) (sha : String)
    (hmain : repo.branchTip "main" = .ok sha)
    (hok : repo.refCreateStatus
      ("feature/issue-" ++ toString ctx.issueNumber ++ "-" ++ toString now) =
        none) :
    githubCreateBranch repo now ctx =
      .ok ("feature/issue-" ++ toString ctx.issueNumber ++ "-" ++
        toString now, sha) := by
  simp [githubCreateBranch, hmain, hok]

/-- Witness for C9 (amended) at a concrete repository. -/
theorem createBranch_name_and_base_witness :
    githubCreateBranch
        ⟨"main", fun b => if b = "main" then .ok "abc123" else .error (404, "nf"),
          fun _ => none⟩
        1700000000000
        ⟨1, 42, "repo", "owner", "T", "", [], none, none, .PENDING, 0⟩ =
      .ok ("feature/issue-42-1700000000000", "abc123") := by
  have h := createBranch_name_and_base
    ⟨"main", fun b => if b = "main" then .ok "abc123" else .error (404, "nf"),
      fun _ => none⟩
    1700000000000
    ⟨1, 42, "repo", "owner", "T", "", [], none, none, .PENDING, 0⟩
    "abc123" rfl rfl
  exact h.trans (by rfl)

theorem retryGo_post {σ α : Type} (op : Nat → σ → σ × Except ThrownError α)
    (cfg : RetryConfig) (t : String) (P : σ → Prop)
    (hop : ∀ k s, P (op k s).1) :
    ∀ r a d s sl, P (retryGo op cfg t r a d s sl).state := by
  intro r
  induction r with
  | zero =>
    intro a d s sl
    simp only [retryGo]
    rcases hr : (op a s).2 with e | v
    · by_cases hnr : e.isNonRetryable <;> simp [hr, hnr] <;> exact hop a s
    · simpa [hr] using hop a s
  | succ n ih =>
    intro a d s sl
    simp only [retryGo]
    rcases hr : (op a s).2 with e | v
    · by_cases hnr : e.isNonRetryable
      · simp [hr, hnr]; exact hop a s
      · simp [hr, hnr]; exact ih (a + 1) _ _ _
    · simpa [hr] using hop a s

theorem retryGo_inv {σ α : Type} (op : Nat → σ → σ × Except ThrownError α)
    (cfg : RetryConfig) (t : String) (I : σ → Prop)
    (hop : ∀ k s, I s → I (op k s).1) :
    ∀ r a d s sl, I s → I (retryGo op cfg t r a d s sl).state := by
  intro r
  induction r with
  | zero =>
    intro a d s sl hs
    simp only [retryGo]
    rcases hr : (op a s).2 with e | v
    · by_cases hnr : e.isNonRetryable <;> simp [hr, hnr] <;> exact hop a s hs
    · simpa [hr] using hop a s hs
  | succ n ih =>
    intro a d s sl hs
    simp only [retryGo]
    rcases hr : (op a s).2 with e | v
    · by_cases hnr : e.isNonRetryable
      · simp [hr, hnr]; exact hop a s hs
      · simp [hr, hnr]; exact ih (a + 1) _ _ _ (hop a s hs)
    · simpa [hr] using hop a s hs

theorem retryWithBackoff_inv {σ α : Type}
    (op : Nat → σ → σ × Except ThrownError α) (cfg : RetryConfig) (t : String)
    (I : σ → Prop) (hop : ∀ k s, I s → I (op k s).1) (s : σ) (hs : I s) :
    I (retryWithBackoff op cfg t s).state :=
  retryGo_inv op cfg t I hop cfg.maxRetries 0 cfg.initialDelayMs s [] hs

theorem retryGo_firstOk {σ α : Type} (op : Nat → σ → σ × Except ThrownError α)
    (cfg : RetryConfig) (t : String) (r a d : Nat) (s : σ) (sl : List Nat)
    (v : α) (h : (op a s).2 = .ok v) :
    retryGo op cfg t r a d s sl = ⟨(op a s).1, .ok v, a + 1, sl.reverse⟩ := by
  cases r <;> simp [retryGo, h]

theorem retryGo_allFail_fixed {σ α : Type}
    (op : Nat → σ → σ × Except ThrownError α) (cfg : RetryConfig) (t : String)
    (I : σ → Prop) (f : σ → Nat) (err : ThrownError)
    (hnr : err.isNonRetryable = false)
    (hop : ∀ k s, I s →
      I (op k s).1 ∧ f (op k s).1 = f s + 1 ∧ (op k s).2 = .error err) :
    ∀ r a d s sl, I s →
      (retryGo op cfg t r a d s sl).attempts = a + r + 1 ∧
      f (retryGo op cfg t r a d s sl).state = f s + (r + 1) ∧
      (retryGo op cfg t r a d s sl).outcome =
        .error (mkMaxRetriesError t cfg err) := by
  intro r
  induction r with
  | zero =>
    intro a d s sl hs
    obtain ⟨hI, hf, he⟩ := hop a s hs
    refine ⟨?_, ?_, ?_⟩ <;> simp [retryGo, he, hnr, hf]
  | succ n ih =>
    intro a d s sl hs
    obtain ⟨hI, hf, he⟩ := hop a s hs
    have hstep : retryGo op cfg t (n + 1) a d s sl =
        retryGo op cfg t n (a + 1)
          (min (d * cfg.backoffMultiplier) cfg.maxDelayMs) (op a s).1
          (d :: sl) := by
      simp [retryGo, he, hnr]
    obtain ⟨h1, h2, h3⟩ := ih (a + 1)
      (min (d * cfg.backoffMultiplier) cfg.maxDelayMs) (op a s).1 (d :: sl) hI
    refine ⟨?_, ?_, ?_⟩
    · rw [hstep, h1]; omega
    · rw [hstep, h2, hf]; omega
    · rw [hstep, h3]

theorem getLast?_append_one {α : Type} (t : List α) (x : α) :
    (t ++ [x]).getLast? = some x := by
  simp

theorem chain'_append_one {α : Type} {R : α → α → Prop} {t : List α} {x : α}
    (hc : List.Chain' R t) (hl : ∀ a, t.getLast? = some a → R a x) :
    List.Chain' R (t ++ [x]) := by
  rw [List.chain'_append]
  refine ⟨hc, List.chain'_singleton x, ?_⟩
  intro a ha y hy
  simp only [List.head?_cons, Option.mem_def, Option.some.injEq] at hy
  subst hy
  exact hl a (Option.mem_def.mp ha)

theorem retryStep_le_four (a : WorkflowStatus) (h : statusRank a ≤ 4) :
    RetryStep a .AGENT_ASSIGNED := by
  revert h
  cases a <;> decide

theorem retryStep_failed (a : WorkflowStatus) : RetryStep a .FAILED := by
  cases a <;> decide

theorem traceInv_mono {b1 b2 : Nat} (h : b1 ≤ b2) {s : PState} :
    TraceInv b1 s → TraceInv b2 s :=
  fun hs => ⟨hs.1, fun a ha => le_trans (hs.2 a ha) h⟩

theorem createBranchStep_trace (env : WorldEnv) (k : Nat) (s : PState) :
    (createBranchStep env k s).1.trace = s.trace ++ [.BRANCH_CREATING] := by
  rcases h : env.interimBranchStatus k with e | u
  · simp [createBranchStep, setStatus, h]
  · rcases h2 : env.createBranchResult k with e | nm <;>
      simp [createBranchStep, setStatus, h, h2]

theorem createBranchStep_inv (env : WorldEnv) :
    ∀ k s, TraceInv 2 s → TraceInv 2 (createBranchStep env k s).1 := by
  intro k s hs
  obtain ⟨hc, hl⟩ := hs
  rw [TraceInv, createBranchStep_trace]
  constructor
  · exact chain'_append_one hc
      (fun a ha => Or.inl (by simpa [statusRank] using hl a ha))
  · intro a ha
    rw [getLast?_append_one] at ha
    obtain rfl : WorkflowStatus.BRANCH_CREATING = a := by injection ha
    decide

theorem assignAgentStep_trace (cfg : WorkflowConfig) (env : WorldEnv)
    (k : Nat) (s : PState) :
    (assignAgentStep cfg env k s).1.trace = s.trace ++ [.AGENT_ASSIGNED] ∨
    (assignAgentStep cfg env k s).1.trace =
      s.trace ++ [.AGENT_ASSIGNED, .PROCESSING] := by
  rcases h : env.interimAgentStatus k with e | u
  · left; simp [assignAgentStep, setStatus, h]
  · by_cases hen : cfg.techLeadEnabled = false
    · left; simp [assignAgentStep, setStatus, h, hen]
    · right
      simp only [assignAgentStep, setStatus, h]
      rw [if_neg hen]
      split
      · split <;> simp
      · simp

theorem assignAgentStep_inv (cfg : WorkflowConfig) (env : WorldEnv) :
    ∀ k s, TraceInv 4 s → TraceInv 4 (assignAgentStep cfg env k s).1 := by
  intro k s hs
  obtain ⟨hc, hl⟩ := hs
  have hAA : List.Chain' RetryStep (s.trace ++ [.AGENT_ASSIGNED]) :=
    chain'_append_one hc (fun a ha => retryStep_le_four a (hl a ha))
  rcases assignAgentStep_trace cfg env k s with htr | htr <;> rw [TraceInv, htr]
  · refine ⟨hAA, ?_⟩
    intro a ha
    rw [getLast?_append_one] at ha
    obtain rfl : WorkflowStatus.AGENT_ASSIGNED = a := by injection ha
    decide
  · rw [show s.trace ++ [WorkflowStatus.AGENT_ASSIGNED, .PROCESSING] =
      (s.trace ++ [WorkflowStatus.AGENT_ASSIGNED]) ++ [.PROCESSING] from by simp]
    refine ⟨chain'_append_one hAA ?_, ?_⟩
    · intro a ha
      rw [getLast?_append_one] at ha
      obtain rfl : WorkflowStatus.AGENT_ASSIGNED = a := by injection ha
      decide
    · intro a ha
      rw [getLast?_append_one] at ha
      obtain rfl : WorkflowStatus.PROCESSING = a := by injection ha
      decide

theorem completedStep_trace (env : WorldEnv) (k : Nat) (s : PState) :
    (completedStep env k s).1.trace = s.trace ++ [.COMPLETED] := by
  rcases h : env.completedStatus k with e | u <;>
    simp [completedStep, updateStatusCore, setStatus, h]

theorem completedStep_inv (env : WorldEnv) :
    ∀ k s, TraceInv 5 s → TraceInv 5 (completedStep env k s).1 := by
  intro k s hs
  obtain ⟨hc, hl⟩ := hs
  rw [TraceInv, completedStep_trace]
  constructor
  · exact chain'_append_one hc
      (fun a ha => Or.inl (by simpa [statusRank] using hl a ha))
  · intro a ha
    rw [getLast?_append_one] at ha
    obtain rfl : WorkflowStatus.COMPLETED = a := by injection ha
    decide

theorem failPath_trace (remote : Except ThrownError Unit) (s : PState)
    (e : ThrownError) :
    (failPath remote s e).trace = s.trace ++ [.FAILED] := by
  rcases remote with e' | u <;> simp [failPath, updateStatusCore, setStatus]

theorem failPath_chain (remote : Except ThrownError Unit) (s : PState)
    (e : ThrownError) (hc : List.Chain' RetryStep s.trace) :
    List.Chain' RetryStep (failPath remote s e).trace := by
  rw [failPath_trace]
  exact chain'_append_one hc (fun a _ => retryStep_failed a)

theorem processSteps_trace (cfg : WorkflowConfig) (env : WorldEnv)
    (s0 : PState) (h0 : TraceInv 2 s0) :
    List.Chain' RetryStep (processSteps cfg env s0).trace := by
  have h2 := retryWithBackoff_inv (createBranchStep env) cfg.retry
    "CREATE_BRANCH" (TraceInv 2) (createBranchStep_inv env) s0 h0
  have h3 := retryWithBackoff_inv (assignAgentStep cfg env) cfg.retry
    "ASSIGN_AGENT" (TraceInv 4) (assignAgentStep_inv cfg env)
    (retryWithBackoff (createBranchStep env) cfg.retry "CREATE_BRANCH" s0).state
    (traceInv_mono (by omega) h2)
  have h4 := retryWithBackoff_inv (completedStep env) cfg.retry
    "UPDATE_STATUS" (TraceInv 5) (completedStep_inv env)
    (retryWithBackoff (assignAgentStep cfg env) cfg.retry "ASSIGN_AGENT"
      (retryWithBackoff (createBranchStep env) cfg.retry "CREATE_BRANCH"
        s0).state).state
    (traceInv_mono (by omega) h3)
  unfold processSteps
  rcases ho2 : (retryWithBackoff (createBranchStep env) cfg.retry
      "CREATE_BRANCH" s0).outcome with e | u
  · simp only [ho2]
    exact failPath_chain _ _ _ h2.1
  · simp only [ho2]
    rcases ho3 : (retryWithBackoff (assignAgentStep cfg env) cfg.retry
        "ASSIGN_AGENT" (retryWithBackoff (createBranchStep env) cfg.retry
          "CREATE_BRANCH" s0).state).outcome with e | u
    · simp only [ho3]
      exact failPath_chain _ _ _ h3.1
    · simp only [ho3]
      rcases ho4 : (retryWithBackoff (completedStep env) cfg.retry
          "UPDATE_STATUS" (retryWithBackoff (assignAgentStep cfg env) cfg.retry
            "ASSIGN_AGENT" (retryWithBackoff (createBranchStep env) cfg.retry
              "CREATE_BRANCH" s0).state).state).outcome with e | u
      · simp only [ho4]
        exact failPath_chain _ _ _ h4.1
      · simp only [ho4]
        exact h4.1

/-- C5 (amended): across one `processIssue` call the sequence of
assignments to `context.status` satisfies: every consecutive transition
either moves forward through
PENDING → PARSING → BRANCH_CREATING → AGENT_ASSIGNED → PROCESSING →
COMPLETED or jumps to FAILED — except that a retried agent step re-enters
AGENT_ASSIGNED after PROCESSING, a backward transition performed by the
code whenever `assignAgent` fails retryably after reaching PROCESSING. -/
theorem processIssue_trace_chain (cfg : WorkflowConfig) (env : WorldEnv)
    (w : GitHubWebhook) :
    List.Chain' RetryStep (processIssue cfg env w).trace := by
  unfold processIssue
  rcases ho : (retryWithBackoff (fun k s => (s, parseWebhook env k w))
      cfg.retry "PARSE_WEBHOOK" ()).outcome with e | ctx
  · simp only [ho]
    exact List.chain'_nil
  · simp only [ho]
    refine processSteps_trace cfg env ⟨ctx, [.PARSING], 0, 0⟩ ⟨?_, ?_⟩
    · exact List.chain'_singleton _
    · intro a ha
      obtain rfl : WorkflowStatus.PARSING = a := by
        simpa using ha
      decide

/-- C5 counterexample: with a retryable failure of the analysis-comment
posting on the agent step's first attempt (`maxRetries = 1`), the status
trace revisits AGENT_ASSIGNED after PROCESSING — a backward transition,
contradicting the claimed strictly-forward progression. -/
theorem processIssue_backward_counterexample :
    (processIssue
      ⟨⟨1, 100, 150, 2⟩, true, 30000⟩
      ⟨fun _ => true, fun _ => .ok (), fun _ => .ok "feature/issue-123-111",
       fun _ => .ok (), fun _ => .resolves "analysis" 5,
       fun k => if k = 0 then
          .error (.workflow "Failed to add tech lead analysis: rate limited"
            "ANALYSIS_UPDATE_FAILED" true none)
         else .ok (),
       fun _ => .ok (), .ok ()⟩
      ⟨"opened",
       some ⟨10, 123, "Add user authentication", some "We need login", "open",
         ["enhancement"]⟩,
       some ⟨"test-repo", "testuser"⟩⟩).trace =
      [.PARSING, .BRANCH_CREATING, .AGENT_ASSIGNED, .PROCESSING,
        .AGENT_ASSIGNED, .PROCESSING, .COMPLETED] ∧
    ¬ List.Chain' (fun a b => statusRank a ≤ statusRank b)
      [WorkflowStatus.PARSING, .BRANCH_CREATING, .AGENT_ASSIGNED, .PROCESSING,
        .AGENT_ASSIGNED, .PROCESSING, .COMPLETED] :=
  ⟨rfl, by
    intro hch
    simp only [List.chain'_cons] at hch
    exact absurd hch.2.2.2.1 (by decide)⟩

theorem retryWithBackoff_post {σ α : Type}
    (op : Nat → σ → σ × Except ThrownError α) (cfg : RetryConfig) (t : String)
    (P : σ → Prop) (hop : ∀ k s, P (op k s).1) (s : σ) :
    P (retryWithBackoff op cfg t s).state :=
  retryGo_post op cfg t P hop cfg.maxRetries 0 cfg.initialDelayMs s []

theorem retryWithBackoff_firstOk {σ α : Type}
    (op : Nat → σ → σ × Except ThrownError α) (cfg : RetryConfig) (t : String)
    (s : σ) (v : α) (h : (op 0 s).2 = .ok v) :
    retryWithBackoff op cfg t s = ⟨(op 0 s).1, .ok v, 1, []⟩ :=
  retryGo_firstOk op cfg t cfg.maxRetries 0 cfg.initialDelayMs s [] v h

theorem retryWithBackoff_allFail_fixed {σ α : Type}
    (op : Nat → σ → σ × Except ThrownError α) (cfg : RetryConfig) (t : String)
    (I : σ → Prop) (f : σ → Nat) (err : ThrownError)
    (hnr : err.isNonRetryable = false)
    (hop : ∀ k s, I s →
      I (op k s).1 ∧ f (op k s).1 = f s + 1 ∧ (op k s).2 = .error err)
    (s : σ) (hs : I s) :
    (retryWithBackoff op cfg t s).attempts = cfg.maxRetries + 1 ∧
    f (retryWithBackoff op cfg t s).state = f s + (cfg.maxRetries + 1) ∧
    (retryWithBackoff op cfg t s).outcome =
      .error (mkMaxRetriesError t cfg err) := by
  have h := retryGo_allFail_fixed op cfg t I f err hnr hop cfg.maxRetries 0
    cfg.initialDelayMs s [] hs
  exact ⟨by simpa [retryWithBackoff] using h.1,
    by simpa [retryWithBackoff] using h.2.1,
    by simpa [retryWithBackoff] using h.2.2⟩

theorem completedStep_status (env : WorldEnv) (k : Nat) (s : PState) :
    (completedStep env k s).1.ctx.status = .COMPLETED := by
  rcases h : env.completedStatus k with e | u <;>
    simp [completedStep, updateStatusCore, setStatus, h]

theorem failPath_fields (remote : Except ThrownError Unit) (s : PState)
    (e : ThrownError) :
    (failPath remote s e).outcome = .error e ∧
    (failPath remote s e).finalCtx = some ((setStatus s .FAILED).ctx) ∧
    (failPath remote s e).failedCalls = 1 ∧
    (failPath remote s e).failedDetail = some (catchMessage e) ∧
    (failPath remote s e).agentCalls = s.agentCalls := by
  rcases remote with e' | u <;> exact ⟨rfl, rfl, rfl, rfl, rfl⟩

theorem failPath_terminal (remote : Except ThrownError Unit) (s : PState)
    (e0 : ThrownError) : TerminalSpec (failPath remote s e0) := by
  obtain ⟨f1, f2, f3, f4, f5⟩ := failPath_fields remote s e0
  refine ⟨?_, ?_, ?_, ?_⟩
  · intro c hc
    rw [f2] at hc
    obtain rfl : (setStatus s .FAILED).ctx = c := by injection hc
    right
    rfl
  · intro c e hc he
    rw [f2] at hc
    obtain rfl : (setStatus s .FAILED).ctx = c := by injection hc
    rw [f1] at he
    obtain rfl : e0 = e := by injection he
    exact ⟨f3, rfl, f4⟩
  · intro h
    rw [f2] at h
    exact Option.noConfusion h
  · intro c ho
    rw [f1] at ho
    exact Except.noConfusion ho

theorem processSteps_terminal (cfg : WorkflowConfig) (env : WorldEnv)
    (s0 : PState) : TerminalSpec (processSteps cfg env s0) := by
  unfold processSteps
  rcases ho2 : (retryWithBackoff (createBranchStep env) cfg.retry
      "CREATE_BRANCH" s0).outcome with e | u
  · simp only [ho2]
    exact failPath_terminal _ _ _
  · simp only [ho2]
    rcases ho3 : (retryWithBackoff (assignAgentStep cfg env) cfg.retry
        "ASSIGN_AGENT" (retryWithBackoff (createBranchStep env) cfg.retry
          "CREATE_BRANCH" s0).state).outcome with e | u
    · simp only [ho3]
      exact failPath_terminal _ _ _
    · simp only [ho3]
      rcases ho4 : (retryWithBackoff (completedStep env) cfg.retry
          "UPDATE_STATUS" (retryWithBackoff (assignAgentStep cfg env) cfg.retry
            "ASSIGN_AGENT" (retryWithBackoff (createBranchStep env) cfg.retry
              "CREATE_BRANCH" s0).state).state).outcome with e | u
      · simp only [ho4]
        exact failPath_terminal _ _ _
      · simp only [ho4]
        have hC : (retryWithBackoff (completedStep env) cfg.retry
            "UPDATE_STATUS" (retryWithBackoff (assignAgentStep cfg env)
              cfg.retry "ASSIGN_AGENT" (retryWithBackoff (createBranchStep env)
                cfg.retry "CREATE_BRANCH" s0).state).state).state.ctx.status =
            .COMPLETED :=
          retryWithBackoff_post _ _ _ (fun s => s.ctx.status = .COMPLETED)
            (fun k s => completedStep_status env k s) _
        refine ⟨?_, ?_, ?_, ?_⟩
        · intro c hc
          obtain rfl : _ = c := by injection hc
          exact Or.inl hC
        · intro c e _ he
          exact Except.noConfusion he
        · intro h
          exact Option.noConfusion h
        · intro c _ hc
          obtain rfl : _ = c := by injection hc
          exact ⟨hC, rfl⟩

/-- C4 (amended): an uncaught error from steps 2-4 — raised after parsing
created the WorkItem — triggers exactly one best-effort
`UpdateStatus(FAILED, errorMessage)` call (not retried; its own failure is
caught and ignored: `failPath` yields the same result for every posting
outcome) after which the original error is re-raised; an uncaught error
from step 1 (Parse) is re-raised with no status call at all, since the
`context` variable is still null and no WorkItem exists; whenever a
WorkItem exists after `processIssue` returns or throws, its status is
exactly COMPLETED (normal return) or FAILED (throw). -/
theorem processIssue_terminal (cfg : WorkflowConfig) (env : WorldEnv)
    (w : GitHubWebhook) :
    TerminalSpec (processIssue cfg env w) ∧
    (∀ o o' (s : PState) (e : ThrownError), failPath o s e = failPath o' s e) := by
  constructor
  · unfold processIssue
    rcases ho : (retryWithBackoff (fun k s => (s, parseWebhook env k w))
        cfg.retry "PARSE_WEBHOOK" ()).outcome with e | ctx
    · simp only [ho]
      exact ⟨fun c hc => Option.noConfusion hc,
        fun c e hc => Option.noConfusion hc,
        fun _ => rfl,
        fun c ho' => Except.noConfusion ho'⟩
    · simp only [ho]
      exact processSteps_terminal cfg env _
  · intro o o' s e
    rcases o with a | b <;> rcases o' with a' | b' <;> rfl

/-- Witness for C4 at a concrete run whose CreateBranch step fails
non-retryably: exactly one FAILED update carrying the original message, the
WorkItem ends FAILED, and the original error is re-raised. -/
theorem processIssue_terminal_witness :
    (processIssue ⟨⟨3, 100, 150, 2⟩, true, 30000⟩
      ⟨fun _ => true, fun _ => .ok (),
       fun _ => .error (.workflow "Repository not found or insufficient permissions"
         "REPO_NOT_FOUND" false none),
       fun _ => .ok (), fun _ => .resolves "analysis" 5, fun _ => .ok (),
       fun _ => .ok (), .ok ()⟩
      ⟨"opened",
       some ⟨10, 123, "Add user authentication", some "We need login", "open",
         ["enhancement"]⟩,
       some ⟨"test-repo", "testuser"⟩⟩).failedCalls = 1 ∧
    (processIssue ⟨⟨3, 100, 150, 2⟩, true, 30000⟩
      ⟨fun _ => true, fun _ => .ok (),
       fun _ => .error (.workflow "Repository not found or insufficient permissions"
         "REPO_NOT_FOUND" false none),
       fun _ => .ok (), fun _ => .resolves "analysis" 5, fun _ => .ok (),
       fun _ => .ok (), .ok ()⟩
      ⟨"opened",
       some ⟨10, 123, "Add user authentication", some "We need login", "open",
         ["enhancement"]⟩,
       some ⟨"test-repo", "testuser"⟩⟩).failedDetail =
      some "Repository not found or insufficient permissions" := by
  have h := (processIssue_terminal ⟨⟨3, 100, 150, 2⟩, true, 30000⟩
    ⟨fun _ => true, fun _ => .ok (),
     fun _ => .error (.workflow "Repository not found or insufficient permissions"
       "REPO_NOT_FOUND" false none),
     fun _ => .ok (), fun _ => .resolves "analysis" 5, fun _ => .ok (),
     fun _ => .ok (), .ok ()⟩
    ⟨"opened",
     some ⟨10, 123, "Add user authentication", some "We need login", "open",
       ["enhancement"]⟩,
     some ⟨"test-repo", "testuser"⟩⟩).1.2.1
  have h2 := h _ _ rfl rfl
  exact ⟨h2.1, h2.2.2.trans (by rfl)⟩

/-- C4 counterexample: a malformed webhook makes step 1 (Parse) raise; the
claim demands exactly one best-effort UpdateStatus(FAILED) call and a final
WorkItem status in COMPLETED/FAILED for every raising run, but here
`processIssue` re-raises with zero FAILED updates and no WorkItem at all. -/
theorem processIssue_parse_counterexample :
    (processIssue ⟨⟨3, 100, 150, 2⟩, true, 30000⟩
      ⟨fun _ => true, fun _ => .ok (), fun _ => .ok "b", fun _ => .ok (),
       fun _ => .resolves "x" 0, fun _ => .ok (), fun _ => .ok (), .ok ()⟩
      ⟨"closed", none, none⟩).outcome =
      .error (.workflow "Invalid webhook payload or unsupported event"
        "INVALID_WEBHOOK" false none) ∧
    (processIssue ⟨⟨3, 100, 150, 2⟩, true, 30000⟩
      ⟨fun _ => true, fun _ => .ok (), fun _ => .ok "b", fun _ => .ok (),
       fun _ => .resolves "x" 0, fun _ => .ok (), fun _ => .ok (), .ok ()⟩
      ⟨"closed", none, none⟩).failedCalls = 0 ∧
    (processIssue ⟨⟨3, 100, 150, 2⟩, true, 30000⟩
      ⟨fun _ => true, fun _ => .ok (), fun _ => .ok "b", fun _ => .ok (),
       fun _ => .resolves "x" 0, fun _ => .ok (), fun _ => .ok (), .ok ()⟩
      ⟨"closed", none, none⟩).finalCtx = none :=
  ⟨rfl, rfl, rfl⟩

/-- C6 (amended): the interim `creating branch` status posting is not
best-effort: its failure reaches `createBranch`'s catch and aborts the
attempt before `githubService.createBranch` is ever invoked — re-raised
unchanged when non-retryable, otherwise wrapped as the retryable
`BRANCH_CREATION_FAILED` error, which the step's `retryWithBackoff` wrapper
then retries. -/
theorem createBranch_interim_aborts (env : WorldEnv) (k : Nat) (s : PState)
    (e : ThrownError) (h : env.interimBranchStatus k = .error e) :
    (createBranchStep env k s).2 = .error (branchCatch e) ∧
    (e.isNonRetryable = true → (createBranchStep env k s).2 = .error e) ∧
    (e.isNonRetryable = false → (createBranchStep env k s).2 =
      .error (.workflow ("Branch creation failed: " ++ e.message)
        "BRANCH_CREATION_FAILED" true (some e))) ∧
    (createBranchStep env k s).1.branchCalls = s.branchCalls ∧
    (createBranchStep env k s).1.ctx.branchName = s.ctx.branchName := by
  have h1 : (createBranchStep env k s).2 = .error (branchCatch e) := by
    simp [createBranchStep, setStatus, h]
  refine ⟨h1, ?_, ?_, ?_, ?_⟩
  · intro hnr
    rw [h1]
    simp [branchCatch, hnr]
  · intro hnr
    rw [h1]
    simp [branchCatch, hnr]
  · simp [createBranchStep, setStatus, h]
  · simp [createBranchStep, setStatus, h]

/-- Witness for C6 (amended) at a concrete non-retryable interim failure:
the attempt re-raises the posting error unchanged and never reaches branch
creation. -/
theorem createBranch_interim_aborts_witness :
    (createBranchStep
      ⟨fun _ => true,
       fun _ => .error (.workflow "Issue not found" "ISSUE_NOT_FOUND" false none),
       fun _ => .ok "b", fun _ => .ok (), fun _ => .resolves "x" 0,
       fun _ => .ok (), fun _ => .ok (), .ok ()⟩
      0
      ⟨⟨1, 123, "r", "o", "T", "", [], none, none, .PARSING, 0⟩,
        [.PARSING], 0, 0⟩).2 =
      .error (.workflow "Issue not found" "ISSUE_NOT_FOUND" false none) ∧
    (createBranchStep
      ⟨fun _ => true,
       fun _ => .error (.workflow "Issue not found" "ISSUE_NOT_FOUND" false none),
       fun _ => .ok "b", fun _ => .ok (), fun _ => .resolves "x" 0,
       fun _ => .ok (), fun _ => .ok (), .ok ()⟩
      0
      ⟨⟨1, 123, "r", "o", "T", "", [], none, none, .PARSING, 0⟩,
        [.PARSING], 0, 0⟩).1.branchCalls = 0 := by
  have h := createBranch_interim_aborts
    ⟨fun _ => true,
     fun _ => .error (.workflow "Issue not found" "ISSUE_NOT_FOUND" false none),
     fun _ => .ok "b", fun _ => .ok (), fun _ => .resolves "x" 0,
     fun _ => .ok (), fun _ => .ok (), .ok ()⟩
    0
    ⟨⟨1, 123, "r", "o", "T", "", [], none, none, .PARSING, 0⟩,
      [.PARSING], 0, 0⟩
    (.workflow "Issue not found" "ISSUE_NOT_FOUND" false none) rfl
  exact ⟨h.2.1 rfl, h.2.2.2.1⟩

/-- C6 counterexample: a retryable failure of the interim `branch-creating`
status posting makes the whole createBranch attempt fail (wrapped as
retryable `BRANCH_CREATION_FAILED`), with `githubService.createBranch`
never invoked — the posting is not caught-and-ignored as claimed. -/
theorem createBranch_interim_counterexample :
    (createBranchStep
      ⟨fun _ => true,
       fun _ => .error (.workflow "Failed to update issue status: boom"
         "STATUS_UPDATE_FAILED" true none),
       fun _ => .ok "b", fun _ => .ok (), fun _ => .resolves "x" 0,
       fun _ => .ok (), fun _ => .ok (), .ok ()⟩
      0
      ⟨⟨1, 123, "r", "o", "T", "", [], none, none, .PARSING, 0⟩,
        [.PARSING], 0, 0⟩).2 =
      .error (.workflow
        "Branch creation failed: Failed to update issue status: boom"
        "BRANCH_CREATION_FAILED" true
        (some (.workflow "Failed to update issue status: boom"
          "STATUS_UPDATE_FAILED" true none))) ∧
    (createBranchStep
      ⟨fun _ => true,
       fun _ => .error (.workflow "Failed to update issue status: boom"
         "STATUS_UPDATE_FAILED" true none),
       fun _ => .ok "b", fun _ => .ok (), fun _ => .resolves "x" 0,
       fun _ => .ok (), fun _ => .ok (), .ok ()⟩
      0
      ⟨⟨1, 123, "r", "o", "T", "", [], none, none, .PARSING, 0⟩,
        [.PARSING], 0, 0⟩).1.branchCalls = 0 :=
  ⟨rfl, rfl⟩

theorem createBranchStep_preserve (env : WorldEnv) (k : Nat) (s : PState) :
    (createBranchStep env k s).1.ctx.title = s.ctx.title ∧
    (createBranchStep env k s).1.agentCalls = s.agentCalls := by
  rcases h : env.interimBranchStatus k with e | u
  · constructor <;> simp [createBranchStep, setStatus, h]
  · rcases h2 : env.createBranchResult k with e | nm <;>
      constructor <;> simp [createBranchStep, setStatus, h, h2]

theorem assignAgentStep_invalid_title (cfg : WorkflowConfig) (env : WorldEnv)
    (hia : ∀ k, env.interimAgentStatus k = .ok ())
    (hen : cfg.techLeadEnabled = true) (ht : 0 < cfg.techLeadTimeout) :
    ∀ k s, s.ctx.title = "" →
      (assignAgentStep cfg env k s).1.ctx.title = "" ∧
      (assignAgentStep cfg env k s).1.agentCalls = s.agentCalls + 1 ∧
      (assignAgentStep cfg env k s).2 =
        .error (.workflow ("Agent execution failed: " ++
            "Invalid workflow context: missing required fields")
          "AGENT_EXECUTION_FAILED" true none) := by
  intro k s hts
  have hiak := hia k
  refine ⟨?_, ?_, ?_⟩ <;>
    simp [assignAgentStep, setStatus, hiak, hen, techLeadExecute,
      techLeadProcessIssue, baseExecute, baseExecuteRace, agentMsgOrDefault,
      jsTemplate, hts, ht]

/-- C8 (amended): a WorkItem with empty title reaches the agent, whose
`validateContext` throws the non-retryable `INVALID_CONTEXT` error — but
`BaseAgent.execute` catches it and returns a failed `AgentResult`, which
`assignAgent` wraps into the retryable `AGENT_EXECUTION_FAILED` error, so
the step IS retried: the agent is executed exactly `maxRetries + 1` times
(not once) and the workflow fails with `MAX_RETRIES_EXCEEDED`. -/
theorem processIssue_invalid_title_retries (cfg : WorkflowConfig)
    (env : WorldEnv) (issue : GitHubIssue) (repo : GitHubRepo)
    (hstate : issue.state = "open") (htitle : issue.title = "")
    (hacc : env.validateRepo 0 = true)
    (hb1 : env.interimBranchStatus 0 = .ok ())
    (bn : String) (hb2 : env.createBranchResult 0 = .ok bn)
    (hia : ∀ k, env.interimAgentStatus k = .ok ())
    (hen : cfg.techLeadEnabled = true) (ht : 0 < cfg.techLeadTimeout) :
    (processIssue cfg env ⟨"opened", some issue, some repo⟩).agentCalls =
      cfg.retry.maxRetries + 1 ∧
    (processIssue cfg env ⟨"opened", some issue, some repo⟩).outcome =
      .error (mkMaxRetriesError "ASSIGN_AGENT" cfg.retry
        (.workflow ("Agent execution failed: " ++
            "Invalid workflow context: missing required fields")
          "AGENT_EXECUTION_FAILED" true none)) := by
  have hparse : parseWebhook env 0 ⟨"opened", some issue, some repo⟩ =
      .ok ⟨issue.id, issue.number, repo.name, repo.ownerLogin, issue.title,
        issue.body.getD "", issue.labels, none, none, .PARSING, 0⟩ := by
    simp [parseWebhook, isValidIssueEvent, hstate, hacc]
  have h1 : retryWithBackoff
      (fun k s => (s, parseWebhook env k ⟨"opened", some issue, some repo⟩))
      cfg.retry "PARSE_WEBHOOK" () =
      ⟨(), .ok ⟨issue.id, issue.number, repo.name, repo.ownerLogin,
        issue.title, issue.body.getD "", issue.labels, none, none, .PARSING,
        0⟩, 1, []⟩ :=
    retryWithBackoff_firstOk _ _ _ _ _ (by simpa using hparse)
  have hPI : processIssue cfg env ⟨"opened", some issue, some repo⟩ =
      processSteps cfg env ⟨⟨issue.id, issue.number, repo.name,
        repo.ownerLogin, issue.title, issue.body.getD "", issue.labels, none,
        none, .PARSING, 0⟩, [.PARSING], 0, 0⟩ := by
    unfold processIssue
    rw [h1]
  have hcb : (createBranchStep env 0 ⟨⟨issue.id, issue.number, repo.name,
      repo.ownerLogin, issue.title, issue.body.getD "", issue.labels, none,
      none, .PARSING, 0⟩, [.PARSING], 0, 0⟩).2 = .ok () := by
    simp [createBranchStep, setStatus, hb1, hb2]
  have h2 : retryWithBackoff (createBranchStep env) cfg.retry "CREATE_BRANCH"
      ⟨⟨issue.id, issue.number, repo.name, repo.ownerLogin, issue.title,
        issue.body.getD "", issue.labels, none, none, .PARSING, 0⟩,
        [.PARSING], 0, 0⟩ =
      ⟨(createBranchStep env 0 ⟨⟨issue.id, issue.number, repo.name,
        repo.ownerLogin, issue.title, issue.body.getD "", issue.labels, none,
        none, .PARSING, 0⟩, [.PARSING], 0, 0⟩).1, .ok (), 1, []⟩ :=
    retryWithBackoff_firstOk _ _ _ _ _ hcb
  have hpres := createBranchStep_preserve env 0 ⟨⟨issue.id, issue.number,
    repo.name, repo.ownerLogin, issue.title, issue.body.getD "", issue.labels,
    none, none, .PARSING, 0⟩, [.PARSING], 0, 0⟩
  have hs2t : (createBranchStep env 0 ⟨⟨issue.id, issue.number, repo.name,
      repo.ownerLogin, issue.title, issue.body.getD "", issue.labels, none,
      none, .PARSING, 0⟩, [.PARSING], 0, 0⟩).1.ctx.title = "" :=
    hpres.1.trans htitle
  have hs2a : (createBranchStep env 0 ⟨⟨issue.id, issue.number, repo.name,
      repo.ownerLogin, issue.title, issue.body.getD "", issue.labels, none,
      none, .PARSING, 0⟩, [.PARSING], 0, 0⟩).1.agentCalls = 0 :=
    hpres.2
  have h3 := retryWithBackoff_allFail_fixed (assignAgentStep cfg env)
    cfg.retry "ASSIGN_AGENT" (fun s => s.ctx.title = "")
    (fun s => s.agentCalls)
    (.workflow ("Agent execution failed: " ++
        "Invalid workflow context: missing required fields")
      "AGENT_EXECUTION_FAILED" true none)
    rfl
    (fun k s hs => assignAgentStep_invalid_title cfg env hia hen ht k s hs)
    (createBranchStep env 0 ⟨⟨issue.id, issue.number, repo.name,
      repo.ownerLogin, issue.title, issue.body.getD "", issue.labels, none,
      none, .PARSING, 0⟩, [.PARSING], 0, 0⟩).1
    hs2t
  have hPS : processSteps cfg env ⟨⟨issue.id, issue.number, repo.name,
      repo.ownerLogin, issue.title, issue.body.getD "", issue.labels, none,
      none, .PARSING, 0⟩, [.PARSING], 0, 0⟩ =
      failPath env.failedStatus
        (retryWithBackoff (assignAgentStep cfg env) cfg.retry "ASSIGN_AGENT"
          (createBranchStep env 0 ⟨⟨issue.id, issue.number, repo.name,
            repo.ownerLogin, issue.title, issue.body.getD "", issue.labels,
            none, none, .PARSING, 0⟩, [.PARSING], 0, 0⟩).1).state
        (mkMaxRetriesError "ASSIGN_AGENT" cfg.retry
          (.workflow ("Agent execution failed: " ++
              "Invalid workflow context: missing required fields")
            "AGENT_EXECUTION_FAILED" true none)) := by
    unfold processSteps
    rw [h2]
    simp only [h3.2.2]
  obtain ⟨ff1, ff2, ff3, ff4, ff5⟩ := failPath_fields env.failedStatus
    (retryWithBackoff (assignAgentStep cfg env) cfg.retry "ASSIGN_AGENT"
      (createBranchStep env 0 ⟨⟨issue.id, issue.number, repo.name,
        repo.ownerLogin, issue.title, issue.body.getD "", issue.labels, none,
        none, .PARSING, 0⟩, [.PARSING], 0, 0⟩).1).state
    (mkMaxRetriesError "ASSIGN_AGENT" cfg.retry
      (.workflow ("Agent execution failed: " ++
          "Invalid workflow context: missing required fields")
        "AGENT_EXECUTION_FAILED" true none))
  constructor
  · have h31 := h3.2.1
    simp only [] at h31
    rw [hPI, hPS, ff5, h31, hs2a]
    omega
  · rw [hPI, hPS, ff1]

/-- Witness for C8 (amended) at a concrete run with `maxRetries = 2`: the
agent is executed 3 times and the step fails with `MAX_RETRIES_EXCEEDED`. -/
theorem processIssue_invalid_title_retries_witness :
    (processIssue ⟨⟨2, 100, 150, 2⟩, true, 30000⟩
      ⟨fun _ => true, fun _ => .ok (), fun _ => .ok "feature/issue-123-111",
       fun _ => .ok (), fun _ => .resolves "analysis" 5, fun _ => .ok (),
       fun _ => .ok (), .ok ()⟩
      ⟨"opened", some ⟨10, 123, "", some "We need login", "open", []⟩,
       some ⟨"test-repo", "testuser"⟩⟩).agentCalls = 3 ∧
    (processIssue ⟨⟨2, 100, 150, 2⟩, true, 30000⟩
      ⟨fun _ => true, fun _ => .ok (), fun _ => .ok "feature/issue-123-111",
       fun _ => .ok (), fun _ => .resolves "analysis" 5, fun _ => .ok (),
       fun _ => .ok (), .ok ()⟩
      ⟨"opened", some ⟨10, 123, "", some "We need login", "open", []⟩,
       some ⟨"test-repo", "testuser"⟩⟩).outcome =
      .error (.workflow
        "ASSIGN_AGENT failed after 3 attempts: Agent execution failed: Invalid workflow context: missing required fields"
        "MAX_RETRIES_EXCEEDED" false
        (some (.workflow
          "Agent execution failed: Invalid workflow context: missing required fields"
          "AGENT_EXECUTION_FAILED" true none))) := by
  have h := processIssue_invalid_title_retries ⟨⟨2, 100, 150, 2⟩, true, 30000⟩
    ⟨fun _ => true, fun _ => .ok (), fun _ => .ok "feature/issue-123-111",
     fun _ => .ok (), fun _ => .resolves "analysis" 5, fun _ => .ok (),
     fun _ => .ok (), .ok ()⟩
    ⟨10, 123, "", some "We need login", "open", []⟩
    ⟨"test-repo", "testuser"⟩
    rfl rfl rfl rfl "feature/issue-123-111" rfl (fun _ => rfl) rfl
    (by decide)
  exact ⟨h.1, h.2.trans (by rfl)⟩

/-- C8 counterexample: with `maxRetries = 1` and an empty-title WorkItem
that reaches the agent step, the agent is executed twice — the validation
failure is retried, contradicting the claimed attempted-exactly-once
behaviour. -/
theorem processIssue_invalid_title_counterexample :
    (processIssue ⟨⟨1, 100, 150, 2⟩, true, 30000⟩
      ⟨fun _ => true, fun _ => .ok (), fun _ => .ok "feature/issue-123-111",
       fun _ => .ok (), fun _ => .resolves "analysis" 5, fun _ => .ok (),
       fun _ => .ok (), .ok ()⟩
      ⟨"opened", some ⟨10, 123, "", some "We need login", "open", []⟩,
       some ⟨"test-repo", "testuser"⟩⟩).agentCalls = 2 ∧ (2 : Nat) ≠ 1 :=
  ⟨rfl, by decide⟩

end IssueWorkflow
